import Mathlib

/-
Shallow embedding of packages/dev/core/src/Materials/Textures/internalTexture.ts.

Modelling conventions:
- Opaque object references (HardwareTextureWrapper, BaseTexture LOD proxies,
  irradiance texture, buffers, spherical polynomials, observers) are modelled
  as Nat identifiers wrapped in Option for nullable fields.
- JS numbers that the file only stores and passes through to the device
  (width, format, samplingMode, lod scale/offset, ...) are modelled as Int;
  no claim depends on fractional values.
- The engine (ThinEngine) is modelled as a trace of DeviceCall events plus,
  for its loaded-textures cache, a list of descriptor unique ids; descriptor
  identity in the cache (reference equality in JS) is modelled by the unique
  id, which is injective because the constructor assigns Counter++.
- The fields of the TextureSampler base class that internalTexture.ts touches
  (samplingMode and the cached sampler-state fields) are inlined into the
  InternalTexture structure; TextureSampler itself is not under src.
- Observable (not under src) is modelled as a list of observer ids; clear()
  empties the list.
- Fields of the class that no modelled operation reads or writes
  (label, workingCanvas, workingContext, sphericalPolynomialPromise) are
  omitted from the record.
-/

namespace InternalTextures

/-- The InternalTextureSource enum of the source file, constructor for
constructor. -/
inductive InternalTextureSource where
  | Unknown
  | Url
  | Temp
  | Raw
  | Dynamic
  | RenderTarget
  | MultiRenderTarget
  | Cube
  | CubeRaw
  | CubePrefiltered
  | Raw3D
  | Raw2DArray
  | DepthStencil
  | CubeRawRGBD
  | Depth
  deriving DecidableEq

/-- The InternalTexture class state: one field per class field of the source,
with the class-level initializers as record defaults.  Underscore-prefixed
names are kept from the source. -/
structure InternalTexture where
  isReady : Bool := false
  isCube : Bool := false
  is3D : Bool := false
  is2DArray : Bool := false
  isMultiview : Bool := false
  url : String := ""
  _originalUrl : Option String := none
  generateMipMaps : Bool := false
  samples : Int := 0
  type : Int := -1
  format : Int := -1
  onLoadedObservable : List Nat := []
  onErrorObservable : List Nat := []
  width : Int := 0
  height : Int := 0
  depth : Int := 0
  baseWidth : Int := 0
  baseHeight : Int := 0
  baseDepth : Int := 0
  invertY : Bool := false
  _invertVScale : Bool := false
  _associatedChannel : Int := -1
  _source : InternalTextureSource := InternalTextureSource.Unknown
  _buffer : Option Nat := none
  _bufferView : Option Nat := none
  _bufferViewArray : Option Nat := none
  _bufferViewArrayArray : Option Nat := none
  _size : Int := 0
  _extension : String := ""
  _files : Option (List String) := none
  _cachedCoordinatesMode : Option Int := none
  _isDisabled : Bool := false
  _compression : Option String := none
  _sphericalPolynomial : Option Nat := none
  _sphericalPolynomialComputed : Bool := false
  _lodGenerationScale : Int := 0
  _lodGenerationOffset : Int := 0
  _useSRGBBuffer : Bool := false
  _lodTextureHigh : Option Nat := none
  _lodTextureMid : Option Nat := none
  _lodTextureLow : Option Nat := none
  _isRGBD : Bool := false
  _linearSpecularLOD : Bool := false
  _irradianceTexture : Option Nat := none
  _hardwareTexture : Option Nat := none
  _maxLodLevel : Option Int := none
  _references : Int := 1
  _gammaSpace : Option Bool := none
  _uniqueId : Nat := 0
  samplingMode : Int := 0
  _cachedWrapU : Option Int := none
  _cachedWrapV : Option Int := none
  _cachedWrapR : Option Int := none
  _cachedAnisotropicFilteringLevel : Option Int := none
  deriving DecidableEq

/-- The constructor of InternalTexture.  The engine call
createHardwareTexture() is modelled by the given handle id; passing none
models delayAllocation = true, in which case no handle is allocated.  The
uniqueId argument models the Counter++ assignment (the counter lives outside
the descriptor). -/
def newInternalTexture (hardwareTexture : Option Nat) (source : InternalTextureSource)
    (uniqueId : Nat) : InternalTexture :=
  { _source := source
    _uniqueId := uniqueId
    _references := 1
    _hardwareTexture := hardwareTexture }

/-- Calls the descriptor makes on its engine, each carrying the arguments the
source passes (arguments that are constants in the source, such as the null
scene, are not recorded). -/
inductive DeviceCall where
  | updateTextureDimensions (texture : InternalTexture) (width height depth : Int)
  | releaseTexture (uniqueId : Nat)
  | setUsage (hardwareTexture : Nat) (source : InternalTextureSource)
      (generateMipMaps isCube : Bool) (width height : Int)
  | disposeBaseTexture (baseTexture : Nat)
  | createTexture (url : String) (noMipmap invertY : Bool) (samplingMode : Int)
      (buffer : Option Nat) (format : Int) (forcedExtension : String) (useSRGBBuffer : Bool)
  | createRawTexture (bufferView : Option Nat) (width height : Int) (format : Int)
      (generateMipMaps invertY : Bool) (samplingMode : Int) (compression : Option String)
      (type : Int) (useSRGBBuffer : Bool)
  | createRawTexture3D (bufferView : Option Nat) (width height depth : Int) (format : Int)
      (generateMipMaps invertY : Bool) (samplingMode : Int) (compression : Option String)
      (type : Int)
  | createRawTexture2DArray (bufferView : Option Nat) (width height depth : Int) (format : Int)
      (generateMipMaps invertY : Bool) (samplingMode : Int) (compression : Option String)
      (type : Int)
  | createDynamicTexture (width height : Int) (generateMipMaps : Bool) (samplingMode : Int)
  | updateDynamicTexture (invertY : Bool)
  | createCubeTexture (url : String) (files : Option (List String)) (noMipmap : Bool)
      (format : Int) (forcedExtension : String) (useSRGBBuffer : Bool)
  | createRawCubeTexture (bufferViewArray : Option Nat) (size : Int) (format type : Int)
      (generateMipMaps invertY : Bool) (samplingMode : Int) (compression : Option String)
  | createPrefilteredCubeTexture (url : String) (lodScale lodOffset : Int) (format : Int)
      (forcedExtension : String)
  deriving DecidableEq

/-- incrementReferences(): this.references++ . -/
def incrementReferences (t : InternalTexture) : InternalTexture :=
  { t with _references := t._references + 1 }

/-- dispose(): decrement references, clear both observables unconditionally,
and when the count reaches exactly zero release the texture on the engine and
null out the handle.  The returned list is the trace of engine calls. -/
def dispose (texture : InternalTexture) : InternalTexture × List DeviceCall :=
  let t := { texture with
    _references := texture._references - 1
    onLoadedObservable := []
    onErrorObservable := [] }
  if t._references = 0 then
    ({ t with _hardwareTexture := none }, [DeviceCall.releaseTexture t._uniqueId])
  else
    (t, [])

/-- updateSize(width, height, depth = 1): calls
engine.updateTextureDimensions(this, width, height, depth) first (the call
carries the descriptor in its pre-update state), then overwrites the current
and base dimensions and the cached size. -/
def updateSize (t : InternalTexture) (width height : Int) (depth : Int := 1) :
    InternalTexture × List DeviceCall :=
  ({ t with
      width := width
      height := height
      depth := depth
      baseWidth := width
      baseHeight := height
      baseDepth := depth
      _size := width * height * depth },
   [DeviceCall.updateTextureDimensions t width height depth])

/-- cache.indexOf(x) followed by cache.splice(index, 1): removes the first
occurrence of x when present, otherwise leaves the list unchanged. -/
def cacheRemove : List Nat → Nat → List Nat
  | [], _ => []
  | y :: ys, x => if y = x then ys else y :: cacheRemove ys x

/-- cache.indexOf(x) !== -1 : membership test. -/
def cacheHas : List Nat → Nat → Bool
  | [], _ => false
  | y :: ys, x => y = x || cacheHas ys x

/-- if (cache.indexOf(target) === -1) cache.push(target): append x when it is
not already present. -/
def cachePush (cache : List Nat) (x : Nat) : List Nat :=
  if cacheHas cache x then cache else cache ++ [x]

/-- Number of occurrences of an id in the cache. -/
def cacheCount : List Nat → Nat → Nat
  | [], _ => 0
  | y :: ys, x => (if y = x then 1 else 0) + cacheCount ys x

/-- Result of a swapAndDie call: the state of the receiver (the dying
descriptor), the state of the target, the engine cache, and the trace of
engine and BaseTexture calls it performed. -/
structure SwapResult where
  source : InternalTexture
  target : InternalTexture
  cache : List Nat
  calls : List DeviceCall
  deriving DecidableEq

/-- One LOD/irradiance slot transfer of swapAndDie: when the dying descriptor
holds a derived texture, the target slot value is disposed first when present
and the slot is overwritten; otherwise the slot is untouched. -/
def transferDerived (sourceSlot targetSlot : Option Nat) : Option Nat × List DeviceCall :=
  match sourceSlot with
  | some derived =>
    (some derived,
      match targetSlot with
      | some previous => [DeviceCall.disposeBaseTexture previous]
      | none => [])
  | none => (targetSlot, [])

/-- swapAndDie(target, swapAll = true).  src is the receiver (this).  Note the
source writes only target fields and the cache: the receiver itself is left
unchanged (in particular its hardware-handle field is not nulled out). -/
def swapAndDie (src tgt : InternalTexture) (swapAll : Bool) (cache : List Nat) : SwapResult :=
  let usageCalls := match src._hardwareTexture with
    | some hw =>
      [DeviceCall.setUsage hw tgt._source src.generateMipMaps src.isCube src.width src.height]
    | none => []
  let t1 := { tgt with _hardwareTexture := src._hardwareTexture }
  let t2 := if swapAll then { t1 with _isRGBD := src._isRGBD } else t1
  let high := transferDerived src._lodTextureHigh t2._lodTextureHigh
  let mid := transferDerived src._lodTextureMid t2._lodTextureMid
  let low := transferDerived src._lodTextureLow t2._lodTextureLow
  let irradiance := transferDerived src._irradianceTexture t2._irradianceTexture
  let t3 := { t2 with
    _lodTextureHigh := high.1
    _lodTextureMid := mid.1
    _lodTextureLow := low.1
    _irradianceTexture := irradiance.1 }
  { source := src
    target := t3
    cache := cachePush (cacheRemove cache src._uniqueId) tgt._uniqueId
    calls := usageCalls ++ high.2 ++ mid.2 ++ low.2 ++ irradiance.2 }

/-- The record an onRebuildCallback returns; proxy is the resolved replacement
descriptor (for the async flavour, the value the promise resolves to). -/
structure RebuildCallbackData where
  proxy : InternalTexture
  isReady : Bool
  isAsync : Bool

/-- Result of a rebuild call, covering both the synchronous return and the
deferred completion of the asynchronous paths:
- dispatchState: the state of this at the moment the kind dispatch (the
  callback invocation or the switch) happens;
- afterIssue: the state of this when rebuild itself returns;
- afterComplete: the state of this after any deferred completion callback of
  the recreation has run (equal to afterIssue on the synchronous paths);
- proxyAfterIssue / proxyFinal: the state of the replacement descriptor right
  after rebuild returns and after completion (none when no replacement);
- calls: every engine call issued, creation calls first;
- swapAllFlags: the swapAll argument of every swapAndDie the rebuild performs;
- cacheAfter: the engine loaded-textures cache after completion. -/
structure RebuildResult where
  dispatchState : InternalTexture
  afterIssue : InternalTexture
  afterComplete : InternalTexture
  proxyAfterIssue : Option InternalTexture
  proxyFinal : Option InternalTexture
  calls : List DeviceCall
  swapAllFlags : List Bool
  cacheAfter : List Nat
  deriving DecidableEq

/-- The assignments rebuild performs before dispatching on the source kind:
clear the ready flag and the five cached sampler-state values. -/
def rebuildPrologue (t : InternalTexture) : InternalTexture :=
  { t with
    isReady := false
    _cachedCoordinatesMode := none
    _cachedWrapU := none
    _cachedWrapV := none
    _cachedWrapR := none
    _cachedAnisotropicFilteringLevel := none }

/-- Result of the branches of the switch that perform nothing (Temp,
CubeRawRGBD, and every source kind without a case). -/
def noOpResult (t1 : InternalTexture) (cache : List Nat) : RebuildResult :=
  { dispatchState := t1
    afterIssue := t1
    afterComplete := t1
    proxyAfterIssue := none
    proxyFinal := none
    calls := []
    swapAllFlags := []
    cacheAfter := cache }

/-- The onRebuildCallback block of rebuild(): invoke the callback on the
post-prologue state, then (immediately when synchronous, on promise
resolution when asynchronous) swap the returned proxy into this and apply
the returned ready flag. -/
def rebuildWithCallback (t1 : InternalTexture) (cache : List Nat)
    (callback : InternalTexture → RebuildCallbackData) : RebuildResult :=
  let data := callback t1
  let sw := swapAndDie data.proxy t1 false cache
  let done := { sw.target with isReady := data.isReady }
  { dispatchState := t1
    afterIssue := if data.isAsync then t1 else done
    afterComplete := done
    proxyAfterIssue := some data.proxy
    proxyFinal := some data.proxy
    calls := sw.calls
    swapAllFlags := [false]
    cacheAfter := sw.cache }

/-- The switch of rebuild() on the source kind, applied to the post-prologue
state t1.  The engine creation calls are modelled by recording their
arguments in the trace and taking the created replacement descriptor
(deviceProxy) as a parameter; for the asynchronous kinds (Url, Cube,
CubePrefiltered) deviceProxy is the descriptor the completion callback
receives. -/
def rebuildBuiltin (t1 : InternalTexture) (cache : List Nat)
    (deviceProxy : InternalTexture) : RebuildResult :=
  match t1._source with
    | InternalTextureSource.Temp => noOpResult t1 cache
    | InternalTextureSource.Url =>
      let sw := swapAndDie deviceProxy t1 false cache
      { dispatchState := t1
        afterIssue := t1
        afterComplete := { sw.target with isReady := true }
        proxyAfterIssue := some deviceProxy
        proxyFinal := some deviceProxy
        calls := DeviceCall.createTexture (t1._originalUrl.getD t1.url) (!t1.generateMipMaps)
            t1.invertY t1.samplingMode t1._buffer t1.format t1._extension t1._useSRGBBuffer
          :: sw.calls
        swapAllFlags := [false]
        cacheAfter := sw.cache }
    | InternalTextureSource.Raw =>
      let sw := swapAndDie deviceProxy t1 false cache
      { dispatchState := t1
        afterIssue := { sw.target with isReady := true }
        afterComplete := { sw.target with isReady := true }
        proxyAfterIssue := some deviceProxy
        proxyFinal := some deviceProxy
        calls := DeviceCall.createRawTexture t1._bufferView t1.baseWidth t1.baseHeight t1.format
            t1.generateMipMaps t1.invertY t1.samplingMode t1._compression t1.type t1._useSRGBBuffer
          :: sw.calls
        swapAllFlags := [false]
        cacheAfter := sw.cache }
    | InternalTextureSource.Raw3D =>
      let sw := swapAndDie deviceProxy t1 false cache
      { dispatchState := t1
        afterIssue := { sw.target with isReady := true }
        afterComplete := { sw.target with isReady := true }
        proxyAfterIssue := some deviceProxy
        proxyFinal := some deviceProxy
        calls := DeviceCall.createRawTexture3D t1._bufferView t1.baseWidth t1.baseHeight
            t1.baseDepth t1.format t1.generateMipMaps t1.invertY t1.samplingMode t1._compression
            t1.type
          :: sw.calls
        swapAllFlags := [false]
        cacheAfter := sw.cache }
    | InternalTextureSource.Raw2DArray =>
      let sw := swapAndDie deviceProxy t1 false cache
      { dispatchState := t1
        afterIssue := { sw.target with isReady := true }
        afterComplete := { sw.target with isReady := true }
        proxyAfterIssue := some deviceProxy
        proxyFinal := some deviceProxy
        calls := DeviceCall.createRawTexture2DArray t1._bufferView t1.baseWidth t1.baseHeight
            t1.baseDepth t1.format t1.generateMipMaps t1.invertY t1.samplingMode t1._compression
            t1.type
          :: sw.calls
        swapAllFlags := [false]
        cacheAfter := sw.cache }
    | InternalTextureSource.Dynamic =>
      let sw := swapAndDie deviceProxy t1 false cache
      { dispatchState := t1
        afterIssue := sw.target
        afterComplete := sw.target
        proxyAfterIssue := some deviceProxy
        proxyFinal := some deviceProxy
        calls := DeviceCall.createDynamicTexture t1.baseWidth t1.baseHeight t1.generateMipMaps
            t1.samplingMode
          :: sw.calls ++ [DeviceCall.updateDynamicTexture t1.invertY]
        swapAllFlags := [false]
        cacheAfter := sw.cache }
    | InternalTextureSource.Cube =>
      let sw := swapAndDie deviceProxy t1 false cache
      { dispatchState := t1
        afterIssue := t1
        afterComplete := { sw.target with isReady := true }
        proxyAfterIssue := some deviceProxy
        proxyFinal := some deviceProxy
        calls := DeviceCall.createCubeTexture t1.url t1._files (!t1.generateMipMaps) t1.format
            t1._extension t1._useSRGBBuffer
          :: sw.calls
        swapAllFlags := [false]
        cacheAfter := sw.cache }
    | InternalTextureSource.CubeRaw =>
      let sw := swapAndDie deviceProxy t1 false cache
      { dispatchState := t1
        afterIssue := { sw.target with isReady := true }
        afterComplete := { sw.target with isReady := true }
        proxyAfterIssue := some deviceProxy
        proxyFinal := some deviceProxy
        calls := DeviceCall.createRawCubeTexture t1._bufferViewArray t1.width t1.format t1.type
            t1.generateMipMaps t1.invertY t1.samplingMode t1._compression
          :: sw.calls
        swapAllFlags := [false]
        cacheAfter := sw.cache }
    | InternalTextureSource.CubeRawRGBD => noOpResult t1 cache
    | InternalTextureSource.CubePrefiltered =>
      let proxy2 := { deviceProxy with _sphericalPolynomial := t1._sphericalPolynomial }
      let sw := swapAndDie proxy2 t1 false cache
      { dispatchState := t1
        afterIssue := t1
        afterComplete := { sw.target with isReady := true }
        proxyAfterIssue := some proxy2
        proxyFinal := some proxy2
        calls := DeviceCall.createPrefilteredCubeTexture t1.url t1._lodGenerationScale
            t1._lodGenerationOffset t1.format t1._extension
          :: sw.calls
        swapAllFlags := [false]
        cacheAfter := sw.cache }
    | InternalTextureSource.Unknown => noOpResult t1 cache
    | InternalTextureSource.RenderTarget => noOpResult t1 cache
    | InternalTextureSource.MultiRenderTarget => noOpResult t1 cache
    | InternalTextureSource.DepthStencil => noOpResult t1 cache
    | InternalTextureSource.Depth => noOpResult t1 cache

/-- rebuild(): apply the prologue, then either run the registered custom
rebuild callback or dispatch on the source kind.  onRebuildCallback models
the nullable callback field of the class. -/
def rebuild (t : InternalTexture) (cache : List Nat)
    (onRebuildCallback : Option (InternalTexture → RebuildCallbackData))
    (deviceProxy : InternalTexture) : RebuildResult :=
  let t1 := rebuildPrologue t
  match onRebuildCallback with
  | some callback => rebuildWithCallback t1 cache callback
  | none => rebuildBuiltin t1 cache deviceProxy

/-- An application-level call on the descriptor: incrementReferences() or
dispose(). -/
inductive RefOp where
  | inc
  | dispose
  deriving DecidableEq

/-- Apply one reference-counting call, returning the new state and the engine
calls it performed. -/
def applyRefOp (t : InternalTexture) : RefOp → InternalTexture × List DeviceCall
  | RefOp.inc => (incrementReferences t, [])
  | RefOp.dispose => dispose t

/-- Run a sequence of incrementReferences() and dispose() calls, accumulating
the engine-call trace. -/
def runOps : InternalTexture → List RefOp → InternalTexture × List DeviceCall
  | t, [] => (t, [])
  | t, op :: rest =>
    let step := applyRefOp t op
    let next := runOps step.1 rest
    (next.1, step.2 ++ next.2)

/-- A call sequence is good when every call is made while the reference count
is still positive, i.e. no call is made on a descriptor whose count has
already reached zero. -/
def goodSeq : InternalTexture → List RefOp → Bool
  | _, [] => true
  | t, op :: rest => decide (0 < t._references) && goodSeq (applyRefOp t op).1 rest

/-- Step n of the sequence performed an engine release: the trace after n+1
steps is one event longer than after n steps. -/
def releasedAtStep (t0 : InternalTexture) (ops : List RefOp) (n : Nat) : Prop :=
  (runOps t0 (ops.take (n + 1))).2.length = (runOps t0 (ops.take n)).2.length + 1

/-- Claim C1 as stated, for a given start state and call sequence: the count
stays nonnegative at every step, the release is invoked at most once, and a
step releases precisely when it is a dispose performed at count 1. -/
def refCountClaim (t0 : InternalTexture) (ops : List RefOp) : Prop :=
  (∀ n : Nat, 0 ≤ (runOps t0 (ops.take n)).1._references) ∧
  (runOps t0 ops).2.length ≤ 1 ∧
  (∀ n : Nat, ∀ h : n < ops.length,
    (releasedAtStep t0 ops n ↔
      (ops.get ⟨n, h⟩ = RefOp.dispose ∧ (runOps t0 (ops.take n)).1._references = 1)))

/-- Claim C2 as stated for a freshly created descriptor: after N increments
and N+1 disposals the release fired exactly once and the handle is null, and
a further dispose() is a no-op (dispose has no rejection path in the source:
it returns no error, so being rejected and being a no-op both mean leaving
the state unchanged and performing no engine call). -/
def disposeSequenceClaim (s : InternalTextureSource) (u hw : Nat) (N : Nat) : Prop :=
  let t0 := newInternalTexture (some hw) s u
  let r := runOps t0 (List.replicate N RefOp.inc ++ List.replicate (N + 1) RefOp.dispose)
  r.2 = [DeviceCall.releaseTexture u] ∧
  r.1._hardwareTexture = none ∧
  dispose r.1 = (r.1, [])

/-- Claim C3 as stated, for one swapAndDie call: afterwards no handle is
referenced from the hardware-texture field of both descriptors at once (the
retired source no longer references the handle it transferred). -/
def uniqueOwnershipClaim (src tgt : InternalTexture) (swapAll : Bool) (cache : List Nat) : Prop :=
  ∀ h : Nat, (swapAndDie src tgt swapAll cache).target._hardwareTexture = some h →
    (swapAndDie src tgt swapAll cache).source._hardwareTexture ≠ some h

/-- Claim C4 as stated, for one descriptor without a custom rebuild callback:
rebuild() issues no engine call and leaves the state unchanged. -/
def rebuildIsNoOpClaim (t : InternalTexture) (cache : List Nat) (proxy : InternalTexture) : Prop :=
  (rebuild t cache none proxy).calls = [] ∧
  (rebuild t cache none proxy).afterIssue = t ∧
  (rebuild t cache none proxy).afterComplete = t

/- ------------------------------------------------------------------ -/
/- Basic projection lemmas.                                           -/
/- ------------------------------------------------------------------ -/

@[simp]
theorem rebuild_some_eq (t : InternalTexture) (cache : List Nat)
    (callback : InternalTexture → RebuildCallbackData) (proxy : InternalTexture) :
    rebuild t cache (some callback) proxy
      = rebuildWithCallback (rebuildPrologue t) cache callback := rfl

@[simp]
theorem rebuild_none_eq (t : InternalTexture) (cache : List Nat) (proxy : InternalTexture) :
    rebuild t cache none proxy = rebuildBuiltin (rebuildPrologue t) cache proxy := rfl

@[simp]
theorem rebuildPrologue_source (t : InternalTexture) :
    (rebuildPrologue t)._source = t._source := rfl

@[simp]
theorem rebuildPrologue_uniqueId (t : InternalTexture) :
    (rebuildPrologue t)._uniqueId = t._uniqueId := rfl

@[simp]
theorem rebuildPrologue_isRGBD (t : InternalTexture) :
    (rebuildPrologue t)._isRGBD = t._isRGBD := rfl

@[simp]
theorem rebuildPrologue_sphericalPolynomial (t : InternalTexture) :
    (rebuildPrologue t)._sphericalPolynomial = t._sphericalPolynomial := rfl

@[simp]
theorem rebuildPrologue_hardwareTexture (t : InternalTexture) :
    (rebuildPrologue t)._hardwareTexture = t._hardwareTexture := rfl

@[simp]
theorem rebuildPrologue_isReady (t : InternalTexture) :
    (rebuildPrologue t).isReady = false := rfl

@[simp]
theorem rebuildPrologue_cachedCoordinatesMode (t : InternalTexture) :
    (rebuildPrologue t)._cachedCoordinatesMode = none := rfl

@[simp]
theorem rebuildPrologue_cachedWrapU (t : InternalTexture) :
    (rebuildPrologue t)._cachedWrapU = none := rfl

@[simp]
theorem rebuildPrologue_cachedWrapV (t : InternalTexture) :
    (rebuildPrologue t)._cachedWrapV = none := rfl

@[simp]
theorem rebuildPrologue_cachedWrapR (t : InternalTexture) :
    (rebuildPrologue t)._cachedWrapR = none := rfl

@[simp]
theorem rebuildPrologue_cachedAnisotropicFilteringLevel (t : InternalTexture) :
    (rebuildPrologue t)._cachedAnisotropicFilteringLevel = none := rfl

@[simp]
theorem dispose_references (t : InternalTexture) :
    (dispose t).1._references = t._references - 1 := by
  simp only [dispose]
  split <;> rfl

@[simp]
theorem dispose_uniqueId (t : InternalTexture) :
    (dispose t).1._uniqueId = t._uniqueId := by
  simp only [dispose]
  split <;> rfl

@[simp]
theorem dispose_hardwareTexture (t : InternalTexture) :
    (dispose t).1._hardwareTexture =
      if t._references - 1 = 0 then none else t._hardwareTexture := by
  simp only [dispose]
  split <;> simp_all

@[simp]
theorem dispose_calls (t : InternalTexture) :
    (dispose t).2 =
      if t._references - 1 = 0 then [DeviceCall.releaseTexture t._uniqueId] else [] := by
  simp only [dispose]
  split <;> simp_all

@[simp]
theorem swapAndDie_source (src tgt : InternalTexture) (swapAll : Bool) (cache : List Nat) :
    (swapAndDie src tgt swapAll cache).source = src := rfl

@[simp]
theorem swapAndDie_cache (src tgt : InternalTexture) (swapAll : Bool) (cache : List Nat) :
    (swapAndDie src tgt swapAll cache).cache =
      cachePush (cacheRemove cache src._uniqueId) tgt._uniqueId := rfl

@[simp]
theorem swapAndDie_target_uniqueId (src tgt : InternalTexture) (swapAll : Bool)
    (cache : List Nat) :
    (swapAndDie src tgt swapAll cache).target._uniqueId = tgt._uniqueId := by
  cases swapAll <;> rfl

@[simp]
theorem swapAndDie_target_hardwareTexture (src tgt : InternalTexture) (swapAll : Bool)
    (cache : List Nat) :
    (swapAndDie src tgt swapAll cache).target._hardwareTexture = src._hardwareTexture := by
  cases swapAll <;> rfl

@[simp]
theorem swapAndDie_target_sphericalPolynomial (src tgt : InternalTexture) (swapAll : Bool)
    (cache : List Nat) :
    (swapAndDie src tgt swapAll cache).target._sphericalPolynomial =
      tgt._sphericalPolynomial := by
  cases swapAll <;> rfl

@[simp]
theorem swapAndDie_target_isRGBD_false (src tgt : InternalTexture) (cache : List Nat) :
    (swapAndDie src tgt false cache).target._isRGBD = tgt._isRGBD := rfl

@[simp]
theorem swapAndDie_target_isReady (src tgt : InternalTexture) (swapAll : Bool)
    (cache : List Nat) :
    (swapAndDie src tgt swapAll cache).target.isReady = tgt.isReady := by
  cases swapAll <;> rfl

/- ------------------------------------------------------------------ -/
/- Lemmas about the loaded-textures cache operations.                 -/
/- ------------------------------------------------------------------ -/

theorem cacheCount_append (a b : List Nat) (x : Nat) :
    cacheCount (a ++ b) x = cacheCount a x + cacheCount b x := by
  induction a with
  | nil => simp [cacheCount]
  | cons y ys ih => simp [cacheCount, ih]; omega

theorem cacheHas_iff_count_pos (c : List Nat) (x : Nat) :
    cacheHas c x = true ↔ 0 < cacheCount c x := by
  induction c with
  | nil => simp [cacheHas, cacheCount]
  | cons y ys ih =>
    by_cases h : y = x <;> simp [cacheHas, cacheCount, h, ih]

theorem cacheCount_remove_self (c : List Nat) (x : Nat) (h : cacheCount c x ≤ 1) :
    cacheCount (cacheRemove c x) x = 0 := by
  induction c with
  | nil => simp [cacheRemove, cacheCount]
  | cons y ys ih =>
    by_cases hy : y = x
    · simp [cacheRemove, cacheCount, hy] at h ⊢
      omega
    · simp [cacheRemove, cacheCount, hy] at h ⊢
      exact ih h

theorem cacheCount_remove_ne (c : List Nat) (x y : Nat) (h : y ≠ x) :
    cacheCount (cacheRemove c x) y = cacheCount c y := by
  induction c with
  | nil => simp [cacheRemove]
  | cons z zs ih =>
    by_cases hz : z = x
    · subst hz
      simp [cacheRemove, cacheCount, Ne.symm h]
    · simp [cacheRemove, cacheCount, hz, ih]

theorem cacheRemove_of_not_has (c : List Nat) (x : Nat) (h : cacheHas c x = false) :
    cacheRemove c x = c := by
  induction c with
  | nil => rfl
  | cons y ys ih =>
    simp [cacheHas] at h
    simp [cacheRemove, h.1, ih h.2]

theorem cacheCount_push_self (c : List Nat) (x : Nat) (h : cacheCount c x ≤ 1) :
    cacheCount (cachePush c x) x = 1 := by
  unfold cachePush
  by_cases hh : cacheHas c x = true
  · have := (cacheHas_iff_count_pos c x).1 hh
    simp [hh]
    omega
  · simp at hh
    have h0 : cacheCount c x = 0 := by
      by_contra hc
      exact absurd ((cacheHas_iff_count_pos c x).2 (by omega)) (by simp [hh])
    simp [hh, cacheCount_append, h0, cacheCount]

theorem cacheCount_push_ne (c : List Nat) (x y : Nat) (h : y ≠ x) :
    cacheCount (cachePush c x) y = cacheCount c y := by
  unfold cachePush
  by_cases hh : cacheHas c x = true <;> simp [hh, cacheCount_append, cacheCount, Ne.symm h]

theorem cachePush_of_has (c : List Nat) (x : Nat) (h : cacheHas c x = true) :
    cachePush c x = c := by
  simp [cachePush, h]

theorem cacheHas_append (a b : List Nat) (x : Nat) :
    cacheHas (a ++ b) x = (cacheHas a x || cacheHas b x) := by
  induction a with
  | nil => simp [cacheHas]
  | cons y ys ih => simp [cacheHas, ih, Bool.or_assoc]

theorem cacheHas_push_self (c : List Nat) (x : Nat) : cacheHas (cachePush c x) x = true := by
  unfold cachePush
  by_cases hh : cacheHas c x = true <;> simp [hh, cacheHas_append, cacheHas]

/- ------------------------------------------------------------------ -/
/- Lemmas about sequences of incrementReferences and dispose calls.   -/
/- ------------------------------------------------------------------ -/

theorem runOps_cons (t : InternalTexture) (op : RefOp) (rest : List RefOp) :
    runOps t (op :: rest) =
      ((runOps (applyRefOp t op).1 rest).1,
        (applyRefOp t op).2 ++ (runOps (applyRefOp t op).1 rest).2) := rfl

theorem runOps_append (a b : List RefOp) (t : InternalTexture) :
    runOps t (a ++ b) =
      ((runOps (runOps t a).1 b).1, (runOps t a).2 ++ (runOps (runOps t a).1 b).2) := by
  induction a generalizing t with
  | nil => simp [runOps]
  | cons op rest ih =>
    simp [runOps_cons, List.cons_append, ih, List.append_assoc]

theorem applyRefOp_calls_length (t : InternalTexture) (op : RefOp) :
    (applyRefOp t op).2.length =
      if op = RefOp.dispose ∧ t._references = 1 then 1 else 0 := by
  cases op with
  | inc => simp [applyRefOp]
  | dispose =>
    simp only [applyRefOp, dispose_calls]
    by_cases h : t._references = 1
    · simp [h]
    · have : ¬t._references - 1 = 0 := by omega
      simp [h, this]

theorem goodSeq_cons (t : InternalTexture) (op : RefOp) (rest : List RefOp) :
    goodSeq t (op :: rest) = true ↔
      0 < t._references ∧ goodSeq (applyRefOp t op).1 rest = true := by
  simp [goodSeq]

theorem applyRefOp_references (t : InternalTexture) (op : RefOp) :
    (applyRefOp t op).1._references = t._references + (if op = RefOp.inc then 1 else -1) := by
  cases op with
  | inc => simp [applyRefOp, incrementReferences]
  | dispose => simp [applyRefOp]; omega

theorem goodSeq_take_nonneg (ops : List RefOp) (t : InternalTexture)
    (hg : goodSeq t ops = true) (h0 : 0 ≤ t._references) (n : Nat) :
    0 ≤ (runOps t (ops.take n)).1._references := by
  induction ops generalizing t n with
  | nil => simpa [runOps] using h0
  | cons op rest ih =>
    rcases (goodSeq_cons t op rest).1 hg with ⟨hpos, hrest⟩
    cases n with
    | zero => simpa [runOps] using h0
    | succ m =>
      have hnext : 0 ≤ (applyRefOp t op).1._references := by
        rw [applyRefOp_references]
        cases op <;> simp <;> omega
      simpa [List.take_succ_cons, runOps_cons] using ih (applyRefOp t op).1 hrest hnext m

theorem goodSeq_release_count (ops : List RefOp) (t : InternalTexture)
    (hg : goodSeq t ops = true) (hpos : 0 < t._references) :
    (runOps t ops).2.length =
      if (runOps t ops).1._references = 0 then 1 else 0 := by
  induction ops generalizing t with
  | nil =>
    have : ¬t._references = 0 := by omega
    simp [runOps, this]
  | cons op rest ih =>
    rcases (goodSeq_cons t op rest).1 hg with ⟨_, hrest⟩
    cases op with
    | inc =>
      have : 0 < (applyRefOp t RefOp.inc).1._references := by
        rw [applyRefOp_references]; simp; omega
      simpa [runOps_cons, applyRefOp] using ih (applyRefOp t RefOp.inc).1 hrest this
    | dispose =>
      by_cases h1 : t._references = 1
      · -- the dispose releases and drops the count to zero; goodness forces rest = []
        have hz : (applyRefOp t RefOp.dispose).1._references = 0 := by
          rw [applyRefOp_references]; simp; omega
        cases rest with
        | nil =>
          simp [runOps_cons, runOps, applyRefOp, hz, h1]
        | cons op2 rest2 =>
          rcases (goodSeq_cons _ op2 rest2).1 hrest with ⟨hpos2, _⟩
          omega
      · have hne : 0 < (applyRefOp t RefOp.dispose).1._references := by
          rw [applyRefOp_references]; simp; omega
        have hcalls : (applyRefOp t RefOp.dispose).2 = [] := by
          simp only [applyRefOp, dispose_calls]
          have : ¬t._references - 1 = 0 := by omega
          simp [this]
        simpa [runOps_cons, hcalls] using ih (applyRefOp t RefOp.dispose).1 hrest hne

theorem releasedAtStep_iff (t0 : InternalTexture) (ops : List RefOp) (n : Nat)
    (h : n < ops.length) :
    releasedAtStep t0 ops n ↔
      (ops.get ⟨n, h⟩ = RefOp.dispose ∧ (runOps t0 (ops.take n)).1._references = 1) := by
  have htake : ops.take (n + 1) = ops.take n ++ [ops.get ⟨n, h⟩] := by
    rw [List.take_succ]
    simp [List.getElem?_eq_getElem h, List.get_eq_getElem]
  unfold releasedAtStep
  rw [htake, runOps_append]
  simp only [List.length_append]
  have hlen : (runOps (runOps t0 (ops.take n)).1 [ops.get ⟨n, h⟩]).2.length =
      (applyRefOp (runOps t0 (ops.take n)).1 (ops.get ⟨n, h⟩)).2.length := by
    simp [runOps_cons, runOps]
  rw [hlen, applyRefOp_calls_length]
  by_cases hc : ops.get ⟨n, h⟩ = RefOp.dispose ∧ (runOps t0 (ops.take n)).1._references = 1 <;>
    simp [hc]

theorem runOps_replicate_inc (k : Nat) (t : InternalTexture) :
    (runOps t (List.replicate k RefOp.inc)).1._references = t._references + k ∧
    (runOps t (List.replicate k RefOp.inc)).1._hardwareTexture = t._hardwareTexture ∧
    (runOps t (List.replicate k RefOp.inc)).1._uniqueId = t._uniqueId ∧
    (runOps t (List.replicate k RefOp.inc)).2 = [] := by
  induction k generalizing t with
  | zero => simp [runOps]
  | succ m ih =>
    rw [List.replicate_succ]
    have h := ih (applyRefOp t RefOp.inc).1
    simp only [applyRefOp, incrementReferences] at h
    refine ⟨?_, ?_, ?_, ?_⟩
    · rw [runOps_cons]
      simp only [applyRefOp, incrementReferences]
      rw [h.1]
      push_cast
      ring
    · simpa [runOps_cons, applyRefOp, incrementReferences] using h.2.1
    · simpa [runOps_cons, applyRefOp, incrementReferences] using h.2.2.1
    · simpa [runOps_cons, applyRefOp, incrementReferences] using h.2.2.2

theorem runOps_replicate_dispose_down (n : Nat) (t : InternalTexture)
    (h : t._references = n + 1) :
    (runOps t (List.replicate n RefOp.dispose)).1._references = 1 ∧
    (runOps t (List.replicate n RefOp.dispose)).1._hardwareTexture = t._hardwareTexture ∧
    (runOps t (List.replicate n RefOp.dispose)).1._uniqueId = t._uniqueId ∧
    (runOps t (List.replicate n RefOp.dispose)).2 = [] := by
  induction n generalizing t with
  | zero => simp [runOps, h]
  | succ m ih =>
    rw [List.replicate_succ]
    have hne : ¬t._references - 1 = 0 := by omega
    have hrefs : (applyRefOp t RefOp.dispose).1._references = m + 1 := by
      rw [applyRefOp_references]; simp; omega
    have hhw : (applyRefOp t RefOp.dispose).1._hardwareTexture = t._hardwareTexture := by
      simp [applyRefOp, hne]
    have huid : (applyRefOp t RefOp.dispose).1._uniqueId = t._uniqueId := by
      simp [applyRefOp]
    have hcalls : (applyRefOp t RefOp.dispose).2 = [] := by
      simp [applyRefOp, hne]
    have ihh := ih (applyRefOp t RefOp.dispose).1 hrefs
    rw [runOps_cons]
    exact ⟨ihh.1, hhw ▸ ihh.2.1, huid ▸ ihh.2.2.1, by simp [hcalls, ihh.2.2.2]⟩

theorem runOps_replicate_dispose_nonpos (m : Nat) (t : InternalTexture)
    (h : t._references ≤ 0) :
    (runOps t (List.replicate m RefOp.dispose)).1._references = t._references - m ∧
    (runOps t (List.replicate m RefOp.dispose)).1._hardwareTexture = t._hardwareTexture ∧
    (runOps t (List.replicate m RefOp.dispose)).2 = [] := by
  induction m generalizing t with
  | zero => simp [runOps]
  | succ k ih =>
    rw [List.replicate_succ]
    have hne : ¬t._references - 1 = 0 := by omega
    have hrefs : (applyRefOp t RefOp.dispose).1._references = t._references - 1 := by
      rw [applyRefOp_references]; simp; omega
    have hhw : (applyRefOp t RefOp.dispose).1._hardwareTexture = t._hardwareTexture := by
      simp [applyRefOp, hne]
    have hcalls : (applyRefOp t RefOp.dispose).2 = [] := by
      simp [applyRefOp, hne]
    have ihh := ih (applyRefOp t RefOp.dispose).1 (by omega)
    refine ⟨?_, hhw ▸ ihh.2.1, by rw [runOps_cons]; simp [hcalls, ihh.2.2]⟩
    rw [runOps_cons]
    simp only []
    rw [ihh.1, hrefs]
    push_cast
    ring

@[simp]
theorem newInternalTexture_references (hw : Option Nat) (s : InternalTextureSource) (u : Nat) :
    (newInternalTexture hw s u)._references = 1 := rfl

@[simp]
theorem newInternalTexture_hardwareTexture (hw : Option Nat) (s : InternalTextureSource)
    (u : Nat) : (newInternalTexture hw s u)._hardwareTexture = hw := rfl

@[simp]
theorem newInternalTexture_uniqueId (hw : Option Nat) (s : InternalTextureSource) (u : Nat) :
    (newInternalTexture hw s u)._uniqueId = u := rfl

/- ------------------------------------------------------------------ -/
/- Claim theorems.                                                    -/
/- ------------------------------------------------------------------ -/

/-- C1 counterexample: on a freshly created descriptor (reference count 1),
the call sequence dispose(); dispose() drives the reference count to -1, so
the claimed invariant that the count stays nonnegative at every step fails:
dispose decrements unconditionally. -/
theorem refCount_claim_counterexample :
    ¬ refCountClaim (newInternalTexture (some 5) InternalTextureSource.Url 0)
      [RefOp.dispose, RefOp.dispose] := by
  intro h
  exact absurd (h.1 2) (by decide)

/-- C1 (amended): for every sequence of incrementReferences() and dispose()
calls starting from creation (reference count 1) in which no call is made
once the count has reached zero, the count stays nonnegative at every step,
the engine releaseTexture is invoked at most once, it is invoked exactly once
precisely when the count ends at zero, and a step invokes it precisely when
it is a dispose() performed at count 1 (the 1 to 0 transition). -/
theorem refCount_invariant (t0 : InternalTexture) (ops : List RefOp)
    (h1 : t0._references = 1) (h2 : goodSeq t0 ops = true) :
    (∀ n : Nat, 0 ≤ (runOps t0 (ops.take n)).1._references) ∧
    (runOps t0 ops).2.length ≤ 1 ∧
    ((runOps t0 ops).2.length = 1 ↔ (runOps t0 ops).1._references = 0) ∧
    (∀ n : Nat, ∀ h : n < ops.length,
      (releasedAtStep t0 ops n ↔
        (ops.get ⟨n, h⟩ = RefOp.dispose ∧ (runOps t0 (ops.take n)).1._references = 1))) := by
  have hpos : 0 < t0._references := by omega
  have hcount := goodSeq_release_count ops t0 h2 hpos
  refine ⟨goodSeq_take_nonneg ops t0 h2 (by omega), ?_, ?_,
    fun n h => releasedAtStep_iff t0 ops n h⟩
  · rw [hcount]; split <;> omega
  · rw [hcount]; split <;> simp_all

/-- C1 witness: the amended invariant instantiated on the concrete sequence
incrementReferences(); dispose(); dispose() from a fresh Url descriptor. -/
theorem refCount_invariant_witness :
    (∀ n : Nat, 0 ≤ (runOps (newInternalTexture (some 5) InternalTextureSource.Url 0)
        ([RefOp.inc, RefOp.dispose, RefOp.dispose].take n)).1._references) ∧
    (runOps (newInternalTexture (some 5) InternalTextureSource.Url 0)
        [RefOp.inc, RefOp.dispose, RefOp.dispose]).2.length ≤ 1 ∧
    ((runOps (newInternalTexture (some 5) InternalTextureSource.Url 0)
        [RefOp.inc, RefOp.dispose, RefOp.dispose]).2.length = 1 ↔
      (runOps (newInternalTexture (some 5) InternalTextureSource.Url 0)
        [RefOp.inc, RefOp.dispose, RefOp.dispose]).1._references = 0) ∧
    (∀ n : Nat, ∀ h : n < [RefOp.inc, RefOp.dispose, RefOp.dispose].length,
      (releasedAtStep (newInternalTexture (some 5) InternalTextureSource.Url 0)
          [RefOp.inc, RefOp.dispose, RefOp.dispose] n ↔
        ([RefOp.inc, RefOp.dispose, RefOp.dispose].get ⟨n, h⟩ = RefOp.dispose ∧
          (runOps (newInternalTexture (some 5) InternalTextureSource.Url 0)
            ([RefOp.inc, RefOp.dispose, RefOp.dispose].take n)).1._references = 1))) :=
  refCount_invariant (newInternalTexture (some 5) InternalTextureSource.Url 0)
    [RefOp.inc, RefOp.dispose, RefOp.dispose] (by decide) (by decide)

/-- C2 counterexample: with N = 0, after the final dispose() a further
dispose() is neither rejected nor a no-op: it changes the state again (the
reference count drops from 0 to -1), even though it performs no engine
call. -/
theorem disposeSequence_claim_counterexample :
    ¬ disposeSequenceClaim InternalTextureSource.Url 0 5 0 := by
  intro h
  exact absurd h.2.2 (by decide)

/-- C2 (amended): from a freshly created descriptor, after N
incrementReferences() calls and N+1 dispose() calls the engine release is
invoked exactly once, on the final dispose (the trace before it is empty and
the count is still 1 there), and the hardware-handle field is null
afterwards; any M further dispose() calls never invoke the engine release
again and leave the handle null, but they are not no-ops: they keep
decrementing the reference count, to -M. -/
theorem disposeSequence_exact_release (s : InternalTextureSource) (u hw : Nat) (N M : Nat) :
    (runOps (newInternalTexture (some hw) s u)
        (List.replicate N RefOp.inc ++ List.replicate N RefOp.dispose)).2 = [] ∧
    (runOps (newInternalTexture (some hw) s u)
        (List.replicate N RefOp.inc ++ List.replicate N RefOp.dispose)).1._references = 1 ∧
    (runOps (newInternalTexture (some hw) s u)
        (List.replicate N RefOp.inc ++ List.replicate (N + 1) RefOp.dispose)).2
      = [DeviceCall.releaseTexture u] ∧
    (runOps (newInternalTexture (some hw) s u)
        (List.replicate N RefOp.inc ++ List.replicate (N + 1) RefOp.dispose)).1._hardwareTexture
      = none ∧
    (runOps (newInternalTexture (some hw) s u)
        ((List.replicate N RefOp.inc ++ List.replicate (N + 1) RefOp.dispose)
          ++ List.replicate M RefOp.dispose)).2 = [DeviceCall.releaseTexture u] ∧
    (runOps (newInternalTexture (some hw) s u)
        ((List.replicate N RefOp.inc ++ List.replicate (N + 1) RefOp.dispose)
          ++ List.replicate M RefOp.dispose)).1._hardwareTexture = none ∧
    (runOps (newInternalTexture (some hw) s u)
        ((List.replicate N RefOp.inc ++ List.replicate (N + 1) RefOp.dispose)
          ++ List.replicate M RefOp.dispose)).1._references = -(M : Int) := by
  obtain ⟨hA1, hA2, hA3, hA4⟩ :=
    runOps_replicate_inc N (newInternalTexture (some hw) s u)
  obtain ⟨hB1, hB2, hB3, hB4⟩ := runOps_replicate_dispose_down N
    (runOps (newInternalTexture (some hw) s u) (List.replicate N RefOp.inc)).1
    (by rw [hA1]; simp; omega)
  have hpre2 : (runOps (newInternalTexture (some hw) s u)
      (List.replicate N RefOp.inc ++ List.replicate N RefOp.dispose)).2 = [] := by
    rw [runOps_append]
    simp [hA4, hB4]
  have hpre1 : (runOps (newInternalTexture (some hw) s u)
      (List.replicate N RefOp.inc ++ List.replicate N RefOp.dispose)).1._references = 1 := by
    rw [runOps_append]
    exact hB1
  have hpreB : (runOps (newInternalTexture (some hw) s u)
      (List.replicate N RefOp.inc ++ List.replicate N RefOp.dispose)).1 =
      (runOps (runOps (newInternalTexture (some hw) s u) (List.replicate N RefOp.inc)).1
        (List.replicate N RefOp.dispose)).1 := by
    rw [runOps_append]
  have hpreuid : (runOps (newInternalTexture (some hw) s u)
      (List.replicate N RefOp.inc ++ List.replicate N RefOp.dispose)).1._uniqueId = u := by
    rw [hpreB, hB3, hA3]
    simp
  have hprehw : (runOps (newInternalTexture (some hw) s u)
      (List.replicate N RefOp.inc ++ List.replicate N RefOp.dispose)).1._hardwareTexture
      = some hw := by
    rw [hpreB, hB2, hA2]
    simp
  have hsplit : List.replicate N RefOp.inc ++ List.replicate (N + 1) RefOp.dispose =
      (List.replicate N RefOp.inc ++ List.replicate N RefOp.dispose) ++ [RefOp.dispose] := by
    rw [List.append_assoc, ← List.replicate_one (a := RefOp.dispose), ← List.replicate_add]
  have hstep2 : (applyRefOp (runOps (newInternalTexture (some hw) s u)
      (List.replicate N RefOp.inc ++ List.replicate N RefOp.dispose)).1 RefOp.dispose).2
      = [DeviceCall.releaseTexture u] := by
    simp [applyRefOp, hpre1, hpreuid]
  have hstephw : InternalTexture._hardwareTexture (applyRefOp (runOps
      (newInternalTexture (some hw) s u)
      (List.replicate N RefOp.inc ++ List.replicate N RefOp.dispose)).1 RefOp.dispose).1
      = none := by
    simp [applyRefOp, hpre1]
  have hstepref : InternalTexture._references (applyRefOp (runOps
      (newInternalTexture (some hw) s u)
      (List.replicate N RefOp.inc ++ List.replicate N RefOp.dispose)).1 RefOp.dispose).1
      = 0 := by
    rw [applyRefOp_references, hpre1]
    simp
  have hfull2 : (runOps (newInternalTexture (some hw) s u)
      (List.replicate N RefOp.inc ++ List.replicate (N + 1) RefOp.dispose)).2
      = [DeviceCall.releaseTexture u] := by
    rw [hsplit, runOps_append]
    simp [hpre2, runOps_cons, runOps, hstep2]
  have hfullstate : (runOps (newInternalTexture (some hw) s u)
      (List.replicate N RefOp.inc ++ List.replicate (N + 1) RefOp.dispose)).1
      = (applyRefOp (runOps (newInternalTexture (some hw) s u)
          (List.replicate N RefOp.inc ++ List.replicate N RefOp.dispose)).1 RefOp.dispose).1 := by
    rw [hsplit, runOps_append]
    simp [runOps_cons, runOps]
  obtain ⟨hE1, hE2, hE3⟩ := runOps_replicate_dispose_nonpos M
    (runOps (newInternalTexture (some hw) s u)
      (List.replicate N RefOp.inc ++ List.replicate (N + 1) RefOp.dispose)).1
    (by rw [hfullstate, hstepref])
  refine ⟨hpre2, hpre1, hfull2, by rw [hfullstate]; exact hstephw, ?_, ?_, ?_⟩
  · rw [runOps_append]
    simp [hfull2, hE3]
  · rw [runOps_append]
    rw [hE2, hfullstate]
    exact hstephw
  · rw [runOps_append]
    rw [hE1, hfullstate, hstepref]
    simp

/-- C3 counterexample: the source never nulls out the hardware-texture field
of the dying descriptor, so after swapAndDie both the target and the retired
source reference the same handle (here handle 5). -/
theorem uniqueOwnership_claim_counterexample :
    ¬ uniqueOwnershipClaim (newInternalTexture (some 5) InternalTextureSource.Url 0)
      (newInternalTexture none InternalTextureSource.Url 1) false [0] := by
  intro h
  exact absurd (by decide :
      (swapAndDie (newInternalTexture (some 5) InternalTextureSource.Url 0)
        (newInternalTexture none InternalTextureSource.Url 1) false [0]).source._hardwareTexture
      = some 5)
    (h 5 (by decide))

/-- C3 (amended): swapAndDie(target) assigns the hardware handle of the dying
descriptor to the target and, assuming the dying descriptor occurred at most
once in the loaded-textures cache and is distinct from the target, removes
the dying descriptor from the cache and ensures the target is present; but
the dying descriptor itself is left completely unchanged, so its
hardware-texture field still references the transferred handle — ownership
uniqueness holds at the cache level, not at the field level. -/
theorem swapAndDie_transfer_ownership (src tgt : InternalTexture) (swapAll : Bool)
    (cache : List Nat) (h1 : cacheCount cache src._uniqueId ≤ 1)
    (hne : src._uniqueId ≠ tgt._uniqueId) :
    (swapAndDie src tgt swapAll cache).target._hardwareTexture = src._hardwareTexture ∧
    (swapAndDie src tgt swapAll cache).source = src ∧
    cacheCount (swapAndDie src tgt swapAll cache).cache src._uniqueId = 0 ∧
    cacheHas (swapAndDie src tgt swapAll cache).cache tgt._uniqueId = true := by
  refine ⟨swapAndDie_target_hardwareTexture src tgt swapAll cache, rfl, ?_, ?_⟩
  · rw [swapAndDie_cache, cacheCount_push_ne _ _ _ hne, cacheCount_remove_self _ _ h1]
  · rw [swapAndDie_cache]
    exact cacheHas_push_self _ _

/-- C3 witness: the amended transfer statement instantiated on concrete
descriptors 0 (with handle 5) and 1, with cache containing only 0. -/
theorem swapAndDie_transfer_ownership_witness :
    (swapAndDie (newInternalTexture (some 5) InternalTextureSource.Url 0)
      (newInternalTexture none InternalTextureSource.Url 1) false [0]).target._hardwareTexture
      = (newInternalTexture (some 5) InternalTextureSource.Url 0)._hardwareTexture ∧
    (swapAndDie (newInternalTexture (some 5) InternalTextureSource.Url 0)
      (newInternalTexture none InternalTextureSource.Url 1) false [0]).source
      = newInternalTexture (some 5) InternalTextureSource.Url 0 ∧
    cacheCount (swapAndDie (newInternalTexture (some 5) InternalTextureSource.Url 0)
      (newInternalTexture none InternalTextureSource.Url 1) false [0]).cache
      (newInternalTexture (some 5) InternalTextureSource.Url 0)._uniqueId = 0 ∧
    cacheHas (swapAndDie (newInternalTexture (some 5) InternalTextureSource.Url 0)
      (newInternalTexture none InternalTextureSource.Url 1) false [0]).cache
      (newInternalTexture none InternalTextureSource.Url 1)._uniqueId = true :=
  swapAndDie_transfer_ownership (newInternalTexture (some 5) InternalTextureSource.Url 0)
    (newInternalTexture none InternalTextureSource.Url 1) false [0] (by decide) (by decide)

/-- C4 counterexample: rebuild() on a Temp descriptor whose ready flag is set
is not a no-op: the common prologue forces isReady to false (and clears the
cached sampler state), so the state changes even though no engine creation
call is issued. -/
theorem rebuildIsNoOp_claim_counterexample :
    ¬ rebuildIsNoOpClaim
      { newInternalTexture (some 3) InternalTextureSource.Temp 0 with isReady := true } []
      (newInternalTexture none InternalTextureSource.Unknown 9) := by
  intro h
  exact absurd h.2.1 (by decide)

/-- C4 (amended): for a descriptor whose source kind is Temp, CubeRawRGBD,
Unknown, RenderTarget, MultiRenderTarget, DepthStencil or Depth and with no
custom rebuild callback, rebuild() issues no engine call, performs no
transfer and leaves the cache untouched; the descriptor state is unchanged
except that the prologue has cleared isReady and the five cached
sampler-state values (in particular the hardware handle is untouched). -/
theorem rebuild_unlisted_noop (t : InternalTexture) (cache : List Nat)
    (proxy : InternalTexture)
    (h : t._source = InternalTextureSource.Temp ∨
      t._source = InternalTextureSource.CubeRawRGBD ∨
      t._source = InternalTextureSource.Unknown ∨
      t._source = InternalTextureSource.RenderTarget ∨
      t._source = InternalTextureSource.MultiRenderTarget ∨
      t._source = InternalTextureSource.DepthStencil ∨
      t._source = InternalTextureSource.Depth) :
    rebuild t cache none proxy = noOpResult (rebuildPrologue t) cache ∧
    (rebuild t cache none proxy).calls = [] ∧
    (rebuild t cache none proxy).swapAllFlags = [] ∧
    (rebuild t cache none proxy).cacheAfter = cache ∧
    (rebuild t cache none proxy).proxyFinal = none ∧
    (rebuild t cache none proxy).afterIssue = rebuildPrologue t ∧
    (rebuild t cache none proxy).afterComplete = rebuildPrologue t ∧
    (rebuild t cache none proxy).afterComplete.isReady = false ∧
    (rebuild t cache none proxy).afterComplete._hardwareTexture = t._hardwareTexture := by
  have hmain : rebuild t cache none proxy = noOpResult (rebuildPrologue t) cache := by
    rcases h with h | h | h | h | h | h | h <;> simp [rebuildBuiltin, h]
  refine ⟨hmain, ?_, ?_, ?_, ?_, ?_, ?_, ?_, ?_⟩ <;> rw [hmain] <;> simp [noOpResult]

/-- C4 witness: the amended no-op statement instantiated on a concrete Temp
descriptor whose ready flag was set. -/
theorem rebuild_unlisted_noop_witness :
    rebuild { newInternalTexture (some 3) InternalTextureSource.Temp 0 with isReady := true }
        [0] none (newInternalTexture none InternalTextureSource.Unknown 9)
      = noOpResult (rebuildPrologue
          { newInternalTexture (some 3) InternalTextureSource.Temp 0 with isReady := true })
          [0] ∧
    (rebuild { newInternalTexture (some 3) InternalTextureSource.Temp 0 with isReady := true }
        [0] none (newInternalTexture none InternalTextureSource.Unknown 9)).calls = [] ∧
    (rebuild { newInternalTexture (some 3) InternalTextureSource.Temp 0 with isReady := true }
        [0] none (newInternalTexture none InternalTextureSource.Unknown 9)).swapAllFlags = [] ∧
    (rebuild { newInternalTexture (some 3) InternalTextureSource.Temp 0 with isReady := true }
        [0] none (newInternalTexture none InternalTextureSource.Unknown 9)).cacheAfter = [0] ∧
    (rebuild { newInternalTexture (some 3) InternalTextureSource.Temp 0 with isReady := true }
        [0] none (newInternalTexture none InternalTextureSource.Unknown 9)).proxyFinal = none ∧
    (rebuild { newInternalTexture (some 3) InternalTextureSource.Temp 0 with isReady := true }
        [0] none (newInternalTexture none InternalTextureSource.Unknown 9)).afterIssue
      = rebuildPrologue
          { newInternalTexture (some 3) InternalTextureSource.Temp 0 with isReady := true } ∧
    (rebuild { newInternalTexture (some 3) InternalTextureSource.Temp 0 with isReady := true }
        [0] none (newInternalTexture none InternalTextureSource.Unknown 9)).afterComplete
      = rebuildPrologue
          { newInternalTexture (some 3) InternalTextureSource.Temp 0 with isReady := true } ∧
    (rebuild { newInternalTexture (some 3) InternalTextureSource.Temp 0 with isReady := true }
        [0] none (newInternalTexture none InternalTextureSource.Unknown 9)).afterComplete.isReady
      = false ∧
    InternalTexture._hardwareTexture
        (rebuild { newInternalTexture (some 3) InternalTextureSource.Temp 0 with
            isReady := true }
          [0] none (newInternalTexture none InternalTextureSource.Unknown 9)).afterComplete
      = ({ newInternalTexture (some 3) InternalTextureSource.Temp 0 with
          isReady := true } : InternalTexture)._hardwareTexture :=
  rebuild_unlisted_noop
    { newInternalTexture (some 3) InternalTextureSource.Temp 0 with isReady := true } [0]
    (newInternalTexture none InternalTextureSource.Unknown 9) (Or.inl (by decide))

/-- C5: assuming each descriptor occurs at most once in the loaded-textures
cache and the dying descriptor is distinct from the target, performing
swapAndDie into the same target twice leaves a cache that contains the
target exactly once and the retired source not at all. -/
theorem cache_transfer_idempotent (src tgt : InternalTexture) (b1 b2 : Bool)
    (cache : List Nat) (h1 : cacheCount cache src._uniqueId ≤ 1)
    (h2 : cacheCount cache tgt._uniqueId ≤ 1) (hne : src._uniqueId ≠ tgt._uniqueId) :
    cacheCount (swapAndDie (swapAndDie src tgt b1 cache).source
        (swapAndDie src tgt b1 cache).target b2 (swapAndDie src tgt b1 cache).cache).cache
      tgt._uniqueId = 1 ∧
    cacheCount (swapAndDie (swapAndDie src tgt b1 cache).source
        (swapAndDie src tgt b1 cache).target b2 (swapAndDie src tgt b1 cache).cache).cache
      src._uniqueId = 0 := by
  simp only [swapAndDie_source, swapAndDie_cache, swapAndDie_target_uniqueId]
  have hs0 : cacheCount (cachePush (cacheRemove cache src._uniqueId) tgt._uniqueId)
      src._uniqueId = 0 := by
    rw [cacheCount_push_ne _ _ _ hne, cacheCount_remove_self _ _ h1]
  have ht1 : cacheCount (cachePush (cacheRemove cache src._uniqueId) tgt._uniqueId)
      tgt._uniqueId = 1 := by
    apply cacheCount_push_self
    rw [cacheCount_remove_ne _ _ _ (Ne.symm hne)]
    exact h2
  have hhas : cacheHas (cachePush (cacheRemove cache src._uniqueId) tgt._uniqueId)
      src._uniqueId = false := by
    cases hx : cacheHas (cachePush (cacheRemove cache src._uniqueId) tgt._uniqueId)
        src._uniqueId
    · rfl
    · have := (cacheHas_iff_count_pos _ _).1 hx
      omega
  rw [cacheRemove_of_not_has _ _ hhas,
    cachePush_of_has _ _ ((cacheHas_iff_count_pos _ _).2 (by omega))]
  exact ⟨ht1, hs0⟩

/-- C5 witness: cache idempotence instantiated on concrete descriptors 0
(the dying one, with handle 5) and 1, with initial cache containing only
descriptor 0. -/
theorem cache_transfer_idempotent_witness :
    cacheCount (swapAndDie (swapAndDie (newInternalTexture (some 5)
          InternalTextureSource.Url 0) (newInternalTexture none InternalTextureSource.Url 1)
          false [0]).source
        (swapAndDie (newInternalTexture (some 5) InternalTextureSource.Url 0)
          (newInternalTexture none InternalTextureSource.Url 1) false [0]).target false
        (swapAndDie (newInternalTexture (some 5) InternalTextureSource.Url 0)
          (newInternalTexture none InternalTextureSource.Url 1) false [0]).cache).cache
      (newInternalTexture none InternalTextureSource.Url 1)._uniqueId = 1 ∧
    cacheCount (swapAndDie (swapAndDie (newInternalTexture (some 5)
          InternalTextureSource.Url 0) (newInternalTexture none InternalTextureSource.Url 1)
          false [0]).source
        (swapAndDie (newInternalTexture (some 5) InternalTextureSource.Url 0)
          (newInternalTexture none InternalTextureSource.Url 1) false [0]).target false
        (swapAndDie (newInternalTexture (some 5) InternalTextureSource.Url 0)
          (newInternalTexture none InternalTextureSource.Url 1) false [0]).cache).cache
      (newInternalTexture (some 5) InternalTextureSource.Url 0)._uniqueId = 0 :=
  cache_transfer_idempotent (newInternalTexture (some 5) InternalTextureSource.Url 0)
    (newInternalTexture none InternalTextureSource.Url 1) false false [0] (by decide)
    (by decide) (by decide)

/-- C6: rebuild preserves identity: for every descriptor, cache state, custom
rebuild callback (present or not) and replacement descriptor supplied by the
engine, the unique id of the descriptor is unchanged both when rebuild()
returns and after any deferred completion callback has run. -/
theorem rebuild_preserves_uniqueId (t : InternalTexture) (cache : List Nat)
    (cb : Option (InternalTexture → RebuildCallbackData)) (proxy : InternalTexture) :
    (rebuild t cache cb proxy).afterIssue._uniqueId = t._uniqueId ∧
    (rebuild t cache cb proxy).afterComplete._uniqueId = t._uniqueId := by
  cases cb with
  | none =>
    rw [rebuild_none_eq]
    unfold rebuildBuiltin
    split <;> simp [noOpResult]
  | some callback =>
    rw [rebuild_some_eq]
    unfold rebuildWithCallback
    constructor
    · simp only []
      split <;> simp
    · simp

/-- C7: updateSize(w, h, d) first issues the engine resize call, carrying the
descriptor in its pre-update state, and then sets width, height and depth as
well as baseWidth, baseHeight and baseDepth to (w, h, d) and the cached
logical size to w * h * d, for all positive w, h, d. -/
theorem updateSize_sets_dimensions (t : InternalTexture) (w h d : Int)
    (_hw : 0 < w) (_hh : 0 < h) (_hd : 0 < d) :
    (updateSize t w h d).1.width = w ∧
    (updateSize t w h d).1.height = h ∧
    (updateSize t w h d).1.depth = d ∧
    (updateSize t w h d).1.baseWidth = w ∧
    (updateSize t w h d).1.baseHeight = h ∧
    (updateSize t w h d).1.baseDepth = d ∧
    (updateSize t w h d).1._size = w * h * d ∧
    (updateSize t w h d).2 = [DeviceCall.updateTextureDimensions t w h d] :=
  ⟨rfl, rfl, rfl, rfl, rfl, rfl, rfl, rfl⟩

/-- C7 witness: updateSize instantiated on a concrete Raw descriptor with
dimensions (4, 5, 6). -/
theorem updateSize_sets_dimensions_witness :
    (updateSize (newInternalTexture (some 3) InternalTextureSource.Raw 0) 4 5 6).1.width = 4 ∧
    (updateSize (newInternalTexture (some 3) InternalTextureSource.Raw 0) 4 5 6).1.height = 5 ∧
    (updateSize (newInternalTexture (some 3) InternalTextureSource.Raw 0) 4 5 6).1.depth = 6 ∧
    (updateSize (newInternalTexture (some 3) InternalTextureSource.Raw 0) 4 5 6).1.baseWidth
      = 4 ∧
    (updateSize (newInternalTexture (some 3) InternalTextureSource.Raw 0) 4 5 6).1.baseHeight
      = 5 ∧
    (updateSize (newInternalTexture (some 3) InternalTextureSource.Raw 0) 4 5 6).1.baseDepth
      = 6 ∧
    (updateSize (newInternalTexture (some 3) InternalTextureSource.Raw 0) 4 5 6).1._size
      = 4 * 5 * 6 ∧
    (updateSize (newInternalTexture (some 3) InternalTextureSource.Raw 0) 4 5 6).2
      = [DeviceCall.updateTextureDimensions
          (newInternalTexture (some 3) InternalTextureSource.Raw 0) 4 5 6] :=
  updateSize_sets_dimensions (newInternalTexture (some 3) InternalTextureSource.Raw 0) 4 5 6
    (by decide) (by decide) (by decide)

/-- C8: for every descriptor, rebuild() clears the ready flag and all five
cached sampler-state values before dispatching to any kind-specific
recreation, including before invoking a registered custom rebuild callback:
the state observed at dispatch time is exactly the prologue state, which has
isReady false and the five cached values null and coincides with the input
on every other field. -/
theorem rebuild_clears_before_dispatch (t : InternalTexture) (cache : List Nat)
    (cb : Option (InternalTexture → RebuildCallbackData)) (proxy : InternalTexture) :
    (rebuild t cache cb proxy).dispatchState = rebuildPrologue t ∧
    (rebuild t cache cb proxy).dispatchState.isReady = false ∧
    (rebuild t cache cb proxy).dispatchState._cachedCoordinatesMode = none ∧
    (rebuild t cache cb proxy).dispatchState._cachedWrapU = none ∧
    (rebuild t cache cb proxy).dispatchState._cachedWrapV = none ∧
    (rebuild t cache cb proxy).dispatchState._cachedWrapR = none ∧
    (rebuild t cache cb proxy).dispatchState._cachedAnisotropicFilteringLevel = none ∧
    (rebuild t cache cb proxy).dispatchState._hardwareTexture = t._hardwareTexture ∧
    (rebuild t cache cb proxy).dispatchState._source = t._source ∧
    (rebuild t cache cb proxy).dispatchState._uniqueId = t._uniqueId := by
  have hmain : (rebuild t cache cb proxy).dispatchState = rebuildPrologue t := by
    cases cb with
    | none =>
      rw [rebuild_none_eq]
      unfold rebuildBuiltin
      split <;> simp [noOpResult]
    | some callback => rfl
  refine ⟨hmain, ?_, ?_, ?_, ?_, ?_, ?_, ?_, ?_, ?_⟩ <;> rw [hmain] <;> simp

/-- C9: every swapAndDie the rebuild machinery performs — on the custom
callback path as well as on every built-in per-source-kind path — is invoked
with swapAll = false, and consequently rebuild() never changes the isRGBD
flag of the descriptor, neither at return nor after completion, for any
source kind and any replacement descriptor. -/
theorem rebuild_preserves_isRGBD (t : InternalTexture) (cache : List Nat)
    (cb : Option (InternalTexture → RebuildCallbackData)) (proxy : InternalTexture) :
    (rebuild t cache cb proxy).swapAllFlags.all (fun b => !b) = true ∧
    (rebuild t cache cb proxy).afterIssue._isRGBD = t._isRGBD ∧
    (rebuild t cache cb proxy).afterComplete._isRGBD = t._isRGBD := by
  cases cb with
  | none =>
    rw [rebuild_none_eq]
    unfold rebuildBuiltin
    split <;> simp [noOpResult]
  | some callback =>
    rw [rebuild_some_eq]
    unfold rebuildWithCallback
    refine ⟨rfl, ?_, ?_⟩
    · simp only []
      split <;> simp
    · simp

/-- C10: swapAndDie never modifies the spherical-polynomial field of its
target; and on a CubePrefiltered rebuild the polynomial of the original
descriptor is copied onto the replacement proxy immediately after the
creation call is issued, while the original descriptor still holds its
pre-rebuild polynomial both at return and after the completion callback has
run. -/
theorem sphericalPolynomial_preserved :
    (∀ src tgt : InternalTexture, ∀ swapAll : Bool, ∀ cache : List Nat,
      (swapAndDie src tgt swapAll cache).target._sphericalPolynomial
        = tgt._sphericalPolynomial) ∧
    (∀ t proxy : InternalTexture, ∀ cache : List Nat,
      t._source = InternalTextureSource.CubePrefiltered →
      (rebuild t cache none proxy).proxyAfterIssue
          = some { proxy with _sphericalPolynomial := t._sphericalPolynomial } ∧
        (rebuild t cache none proxy).afterIssue._sphericalPolynomial
          = t._sphericalPolynomial ∧
        (rebuild t cache none proxy).afterComplete._sphericalPolynomial
          = t._sphericalPolynomial) := by
  refine ⟨fun src tgt swapAll cache =>
    swapAndDie_target_sphericalPolynomial src tgt swapAll cache, ?_⟩
  intro t proxy cache h
  refine ⟨?_, ?_, ?_⟩ <;> simp [rebuildBuiltin, h]

/-- C10 witness: the CubePrefiltered statement instantiated on a concrete
descriptor with polynomial 7 and a replacement proxy without one, plus the
swapAndDie statement at the same inputs. -/
theorem sphericalPolynomial_preserved_witness :
    (swapAndDie (newInternalTexture (some 4) InternalTextureSource.Unknown 9)
      { newInternalTexture (some 3) InternalTextureSource.CubePrefiltered 0 with
        _sphericalPolynomial := some 7 } false []).target._sphericalPolynomial
      = some 7 ∧
    (rebuild { newInternalTexture (some 3) InternalTextureSource.CubePrefiltered 0 with
        _sphericalPolynomial := some 7 } [] none
        (newInternalTexture (some 4) InternalTextureSource.Unknown 9)).proxyAfterIssue
      = some { newInternalTexture (some 4) InternalTextureSource.Unknown 9 with
          _sphericalPolynomial := some 7 } := by
  constructor
  · exact sphericalPolynomial_preserved.1
      (newInternalTexture (some 4) InternalTextureSource.Unknown 9)
      { newInternalTexture (some 3) InternalTextureSource.CubePrefiltered 0 with
        _sphericalPolynomial := some 7 } false []
  · exact (sphericalPolynomial_preserved.2
      { newInternalTexture (some 3) InternalTextureSource.CubePrefiltered 0 with
        _sphericalPolynomial := some 7 }
      (newInternalTexture (some 4) InternalTextureSource.Unknown 9) [] rfl).1

end InternalTextures
